import Mathlib

/-!
Verification development for the JSONPlaceholder API client
(`src/api-client.ts`, `src/types/index.ts`).

The client is a thin typed wrapper around one generic request executor
(`makeRequest`).  We embed it shallowly:

* `JsValue` models the dynamic JavaScript values passed as request
  bodies / query parameters, with JavaScript truthiness (`JsValue.truthy`),
  because `makeRequest` builds its config with the spreads
  `...(data && { data })` and `...(params && { params })`.
* `RequestConfig` is the axios config object built by `makeRequest`:
  method, absolute url (`baseUrl ++ endpoint`), timeout, and the
  conditionally-included `data` / `params` fields.
* `AxiosOutcome` is the result of the single awaited transport call:
  either a response (data, status, statusText) or a raised `AxiosError`
  (message, optional `response` carrying the status, optional `code`).
* `handleOutcome` is the success-return plus catch-block of `makeRequest`:
  it wraps a response into the `ApiResponse` envelope and classifies a
  transport error into exactly one thrown message, checking
  `error.response` first, then `error.code === 'ECONNABORTED'`.
* Each endpoint method is embedded as a `...Call` function producing a
  `Call`: either `Call.failFast msg` (a validation error thrown before
  `makeRequest` is ever invoked, hence before any network interaction)
  or `Call.net cfg` (exactly one HTTP request with config `cfg`).
  `runCall` then feeds the issued request to a transport function and
  normalizes the outcome, completing the behaviour of a client method.
-/

namespace JsonPlaceholder

/-- The five HTTP methods accepted by `makeRequest`. -/
inductive HttpMethod where
  | GET
  | POST
  | PUT
  | PATCH
  | DELETE
  deriving DecidableEq, Repr

/-- Dynamic JavaScript values used for request bodies and query params
(`data?: any`, `params?: any` in `makeRequest`). -/
inductive JsValue where
  | vnull : JsValue
  | vbool : Bool → JsValue
  | vnum : Int → JsValue
  | vstr : String → JsValue
  | vobj : List (String × JsValue) → JsValue

/-- JavaScript truthiness, as tested by the `data &&` / `params &&`
guards in `makeRequest`: `null`/`undefined`, `false`, `0` and `""` are
falsy; every object is truthy. -/
def JsValue.truthy : JsValue → Bool
  | .vnull => false
  | .vbool b => b
  | .vnum n => n != 0
  | .vstr s => s != ""
  | .vobj _ => true

/-- Client state: `baseUrl` and `timeout`, both private fields set in the
constructor of `JsonPlaceholderApiClient` and never assigned afterwards. -/
structure Client where
  baseUrl : String
  timeout : Nat

/-- The constructor defaults:
`baseUrl = 'https://jsonplaceholder.typicode.com'`, `timeout = 10000`. -/
def defaultClient : Client :=
  { baseUrl := "https://jsonplaceholder.typicode.com", timeout := 10000 }

/-- The axios config object built inside `makeRequest`.  `data` and
`params` are `Option`s: `none` means the field is absent from the
object literal (the conditional spread contributed nothing). -/
structure RequestConfig where
  method : HttpMethod
  url : String
  timeout : Nat
  data : Option JsValue
  params : Option JsValue

/-- The conditional spread `...(x && { x })`: the field is included
exactly when the argument is present and truthy. -/
def jsField : Option JsValue → Option JsValue
  | some v => if v.truthy then some v else none
  | none => none

/-- The config-building half of `makeRequest`:
`{ method, url: baseUrl + endpoint, timeout, ...(data && {data}), ...(params && {params}) }`. -/
def makeRequestCall (c : Client) (method : HttpMethod) (endpoint : String)
    (dataArg paramsArg : Option JsValue) : RequestConfig :=
  { method := method
    url := c.baseUrl ++ endpoint
    timeout := c.timeout
    data := jsField dataArg
    params := jsField paramsArg }

/-- The uniform response envelope (`ApiResponse<T>` in `types/index.ts`):
exactly the three fields `data`, `status`, `statusText`. -/
structure ApiResponse (T : Type) where
  data : T
  status : Nat
  statusText : String

/-- The `error.response` object inspected by the catch block; the code
reads only its `status`. -/
structure ErrorResponse where
  status : Nat

/-- The error raised by axios: `message`, the optional server `response`,
and the optional transport `code` (axios sets `'ECONNABORTED'` on
timeout). -/
structure AxiosError where
  message : String
  response : Option ErrorResponse
  code : Option String

/-- JavaScript stringification of an `Error` instance, as used by the
template literal `` `Unexpected error: ${error}` ``. -/
def AxiosError.stringify (e : AxiosError) : String :=
  "Error: " ++ e.message

/-- Outcome of the single awaited `axios(config)` call: a response
(data, status, statusText) or a raised transport error. -/
inductive AxiosOutcome (T : Type) where
  | success : T → Nat → String → AxiosOutcome T
  | failure : AxiosError → AxiosOutcome T

/-- The success return and the catch block of `makeRequest`: a response
becomes the `ApiResponse` envelope; an error is classified by first
checking `error.response`, then `error.code === 'ECONNABORTED'`, and
otherwise re-thrown wrapped generically. -/
def handleOutcome {T : Type} (timeout : Nat) : AxiosOutcome T → Except String (ApiResponse T)
  | .success d st stx => .ok { data := d, status := st, statusText := stx }
  | .failure err =>
    match err.response with
    | some r =>
        .error ("API request failed: " ++ err.message ++ " - Status: " ++ toString r.status)
    | none =>
        if err.code = some "ECONNABORTED" then
          .error ("Request timed out after " ++ toString timeout ++ "ms")
        else
          .error ("Unexpected error: " ++ err.stringify)

/-- The full generic request executor `makeRequest`: build the config,
issue the call through the given transport, normalize the outcome. -/
def makeRequest {T : Type} (c : Client) (method : HttpMethod) (endpoint : String)
    (dataArg paramsArg : Option JsValue)
    (transport : RequestConfig → AxiosOutcome T) : Except String (ApiResponse T) :=
  handleOutcome c.timeout (transport (makeRequestCall c method endpoint dataArg paramsArg))

/-- The pre-network phase of one endpoint-method invocation: either a
validation error thrown before `makeRequest` runs (so no request is
issued), or exactly one HTTP request with the given config. -/
inductive Call where
  | failFast : String → Call
  | net : RequestConfig → Call

/-- Whether the invocation reaches the network (no fail-fast error). -/
def Call.isNet : Call → Bool
  | .failFast _ => false
  | .net _ => true

/-- Completes a `Call` against a transport: a fail-fast validation error
is thrown as-is; an issued request's outcome goes through the
executor's normalization. -/
def runCall {T : Type} (c : Client) (call : Call)
    (transport : RequestConfig → AxiosOutcome T) : Except String (ApiResponse T) :=
  match call with
  | .failFast msg => .error msg
  | .net cfg => handleOutcome c.timeout (transport cfg)

/-- `CreatePostRequest` from `types/index.ts`: all three fields required. -/
structure CreatePostRequest where
  title : String
  body : String
  userId : Int

/-- The JSON object a `CreatePostRequest` is as a request body. -/
def CreatePostRequest.toJs (p : CreatePostRequest) : JsValue :=
  .vobj [("title", .vstr p.title), ("body", .vstr p.body), ("userId", .vnum p.userId)]

/-- `UpdatePostRequest` (also covering `Partial<UpdatePostRequest>` for
PATCH): all fields optional. -/
structure UpdatePostRequest where
  title : Option String
  body : Option String
  userId : Option Int

/-- The JSON object an `UpdatePostRequest` is as a request body (absent
fields are not serialized). -/
def UpdatePostRequest.toJs (p : UpdatePostRequest) : JsValue :=
  .vobj ((p.title.map fun t => ("title", JsValue.vstr t)).toList ++
         (p.body.map fun b => ("body", JsValue.vstr b)).toList ++
         (p.userId.map fun u => ("userId", JsValue.vnum u)).toList)

/-- Query filter of `getComments`: `{ postId?: number }`. -/
structure CommentsFilter where
  postId : Option Int

/-- The query-parameter object of a `CommentsFilter`. -/
def CommentsFilter.toJs (f : CommentsFilter) : JsValue :=
  .vobj ((f.postId.map fun n => ("postId", JsValue.vnum n)).toList)

/-- Query filter of `getPhotos`: `{ albumId?: number }`. -/
structure PhotosFilter where
  albumId : Option Int

/-- The query-parameter object of a `PhotosFilter`. -/
def PhotosFilter.toJs (f : PhotosFilter) : JsValue :=
  .vobj ((f.albumId.map fun n => ("albumId", JsValue.vnum n)).toList)

/-- Query filter of `getTodos`: `{ userId?: number; completed?: boolean }`. -/
structure TodosFilter where
  userId : Option Int
  completed : Option Bool

/-- The query-parameter object of a `TodosFilter`. -/
def TodosFilter.toJs (f : TodosFilter) : JsValue :=
  .vobj ((f.userId.map fun n => ("userId", JsValue.vnum n)).toList ++
         (f.completed.map fun b => ("completed", JsValue.vbool b)).toList)

/-- `getPosts()`: GET `/posts`, no body, no params, no validation. -/
def getPostsCall (c : Client) : Call :=
  .net (makeRequestCall c .GET "/posts" none none)

/-- `getPost(id)`: throws `'Post ID must be positive'` when `id <= 0`,
otherwise GET `/posts/${id}`. -/
def getPostCall (c : Client) (id : Int) : Call :=
  if id ≤ 0 then .failFast "Post ID must be positive"
  else .net (makeRequestCall c .GET ("/posts/" ++ toString id) none none)

/-- `getPostComments(postId)`: GET `/posts/${postId}/comments`. -/
def getPostCommentsCall (c : Client) (postId : Int) : Call :=
  .net (makeRequestCall c .GET ("/posts/" ++ toString postId ++ "/comments") none none)

/-- `createPost(postData)`: throws `'Title and body are required'` when
`!postData.title || !postData.body` (empty strings are falsy),
otherwise POST `/posts` with `postData` as body. -/
def createPostCall (c : Client) (postData : CreatePostRequest) : Call :=
  if postData.title = "" ∨ postData.body = "" then .failFast "Title and body are required"
  else .net (makeRequestCall c .POST "/posts" (some postData.toJs) none)

/-- `updatePost(id, postData)`: PUT `/posts/${id}` with body, no validation. -/
def updatePostCall (c : Client) (id : Int) (postData : UpdatePostRequest) : Call :=
  .net (makeRequestCall c .PUT ("/posts/" ++ toString id) (some postData.toJs) none)

/-- `patchPost(id, postData)`: PATCH `/posts/${id}` with body, no validation. -/
def patchPostCall (c : Client) (id : Int) (postData : UpdatePostRequest) : Call :=
  .net (makeRequestCall c .PATCH ("/posts/" ++ toString id) (some postData.toJs) none)

/-- `deletePost(id)`: DELETE `/posts/${id}`, no validation. -/
def deletePostCall (c : Client) (id : Int) : Call :=
  .net (makeRequestCall c .DELETE ("/posts/" ++ toString id) none none)

/-- `getComments(params?)`: GET `/comments` with optional query params. -/
def getCommentsCall (c : Client) (filter : Option CommentsFilter) : Call :=
  .net (makeRequestCall c .GET "/comments" none (filter.map CommentsFilter.toJs))

/-- `getComment(id)`: GET `/comments/${id}`, no validation. -/
def getCommentCall (c : Client) (id : Int) : Call :=
  .net (makeRequestCall c .GET ("/comments/" ++ toString id) none none)

/-- `getAlbums()`: GET `/albums`. -/
def getAlbumsCall (c : Client) : Call :=
  .net (makeRequestCall c .GET "/albums" none none)

/-- `getAlbum(id)`: GET `/albums/${id}`, no validation. -/
def getAlbumCall (c : Client) (id : Int) : Call :=
  .net (makeRequestCall c .GET ("/albums/" ++ toString id) none none)

/-- `getAlbumPhotos(albumId)`: GET `/albums/${albumId}/photos`. -/
def getAlbumPhotosCall (c : Client) (albumId : Int) : Call :=
  .net (makeRequestCall c .GET ("/albums/" ++ toString albumId ++ "/photos") none none)

/-- `getPhotos(params?)`: GET `/photos` with optional query params. -/
def getPhotosCall (c : Client) (filter : Option PhotosFilter) : Call :=
  .net (makeRequestCall c .GET "/photos" none (filter.map PhotosFilter.toJs))

/-- `getPhoto(id)`: GET `/photos/${id}`, no validation. -/
def getPhotoCall (c : Client) (id : Int) : Call :=
  .net (makeRequestCall c .GET ("/photos/" ++ toString id) none none)

/-- `getTodos(params?)`: GET `/todos` with optional query params. -/
def getTodosCall (c : Client) (filter : Option TodosFilter) : Call :=
  .net (makeRequestCall c .GET "/todos" none (filter.map TodosFilter.toJs))

/-- `getTodo(id)`: GET `/todos/${id}`, no validation. -/
def getTodoCall (c : Client) (id : Int) : Call :=
  .net (makeRequestCall c .GET ("/todos/" ++ toString id) none none)

/-- `getUsers()`: GET `/users`. -/
def getUsersCall (c : Client) : Call :=
  .net (makeRequestCall c .GET "/users" none none)

/-- `getUser(id)`: GET `/users/${id}`, no validation. -/
def getUserCall (c : Client) (id : Int) : Call :=
  .net (makeRequestCall c .GET ("/users/" ++ toString id) none none)

/-- `getUserPosts(userId)`: GET `/users/${userId}/posts`. -/
def getUserPostsCall (c : Client) (userId : Int) : Call :=
  .net (makeRequestCall c .GET ("/users/" ++ toString userId ++ "/posts") none none)

/-- `getUserTodos(userId)`: GET `/users/${userId}/todos`. -/
def getUserTodosCall (c : Client) (userId : Int) : Call :=
  .net (makeRequestCall c .GET ("/users/" ++ toString userId ++ "/todos") none none)

/-- `getUserAlbums(userId)`: GET `/users/${userId}/albums`. -/
def getUserAlbumsCall (c : Client) (userId : Int) : Call :=
  .net (makeRequestCall c .GET ("/users/" ++ toString userId ++ "/albums") none none)

/-- One endpoint-method invocation of the client surface, with its arguments. -/
inductive Op where
  | getPosts
  | getPost (id : Int)
  | getPostComments (postId : Int)
  | createPost (p : CreatePostRequest)
  | updatePost (id : Int) (p : UpdatePostRequest)
  | patchPost (id : Int) (p : UpdatePostRequest)
  | deletePost (id : Int)
  | getComments (f : Option CommentsFilter)
  | getComment (id : Int)
  | getAlbums
  | getAlbum (id : Int)
  | getAlbumPhotos (albumId : Int)
  | getPhotos (f : Option PhotosFilter)
  | getPhoto (id : Int)
  | getTodos (f : Option TodosFilter)
  | getTodo (id : Int)
  | getUsers
  | getUser (id : Int)
  | getUserPosts (userId : Int)
  | getUserTodos (userId : Int)
  | getUserAlbums (userId : Int)

/-- The pre-network phase of each endpoint method, dispatched over the
whole client surface. -/
def callOf (c : Client) : Op → Call
  | .getPosts => getPostsCall c
  | .getPost id => getPostCall c id
  | .getPostComments postId => getPostCommentsCall c postId
  | .createPost p => createPostCall c p
  | .updatePost id p => updatePostCall c id p
  | .patchPost id p => patchPostCall c id p
  | .deletePost id => deletePostCall c id
  | .getComments f => getCommentsCall c f
  | .getComment id => getCommentCall c id
  | .getAlbums => getAlbumsCall c
  | .getAlbum id => getAlbumCall c id
  | .getAlbumPhotos albumId => getAlbumPhotosCall c albumId
  | .getPhotos f => getPhotosCall c f
  | .getPhoto id => getPhotoCall c id
  | .getTodos f => getTodosCall c f
  | .getTodo id => getTodoCall c id
  | .getUsers => getUsersCall c
  | .getUser id => getUserCall c id
  | .getUserPosts userId => getUserPostsCall c userId
  | .getUserTodos userId => getUserTodosCall c userId
  | .getUserAlbums userId => getUserAlbumsCall c userId

/-- Executes one endpoint-method invocation on the client object: the
method reads `baseUrl` and `timeout` but contains no assignment to
either field, so the resulting client state is the input state. -/
def applyOp (c : Client) (op : Op)
    (transport : RequestConfig → AxiosOutcome JsValue) :
    Client × Except String (ApiResponse JsValue) :=
  (c, runCall c (callOf c op) transport)

/-- The client state after a sequence of invocations, each with its own
transport behaviour. -/
def runOps (c : Client) : List (Op × (RequestConfig → AxiosOutcome JsValue)) → Client
  | [] => c
  | (op, tr) :: rest => runOps (applyOp c op tr).1 rest

/-- Claim C1: every failure of the generic request executor is surfaced as
a thrown error of exactly one of three kinds, determined by the transport
error: with a server response the message includes the original transport
message and the numeric status; with no response and the timeout code the
message states the configured timeout in milliseconds; any other failure
is wrapped generically.  No failure is recovered, retried, or replaced by
a default value (the result is always an error). -/
theorem makeRequest_failure_classification (T : Type) (c : Client)
    (method : HttpMethod) (endpoint : String) (dataArg paramsArg : Option JsValue)
    (err : AxiosError) :
    (∃ msg, makeRequest c method endpoint dataArg paramsArg
        (fun _ => (AxiosOutcome.failure err : AxiosOutcome T)) = Except.error msg)
  ∧ (∀ r, err.response = some r →
      makeRequest c method endpoint dataArg paramsArg
          (fun _ => (AxiosOutcome.failure err : AxiosOutcome T)) =
        Except.error ("API request failed: " ++ err.message ++ " - Status: " ++
          toString r.status))
  ∧ (err.response = none → err.code = some "ECONNABORTED" →
      makeRequest c method endpoint dataArg paramsArg
          (fun _ => (AxiosOutcome.failure err : AxiosOutcome T)) =
        Except.error ("Request timed out after " ++ toString c.timeout ++ "ms"))
  ∧ (err.response = none → err.code ≠ some "ECONNABORTED" →
      makeRequest c method endpoint dataArg paramsArg
          (fun _ => (AxiosOutcome.failure err : AxiosOutcome T)) =
        Except.error ("Unexpected error: " ++ err.stringify)) := by
  refine ⟨?_, ?_, ?_, ?_⟩
  · cases h : err.response with
    | some r =>
      exact ⟨"API request failed: " ++ err.message ++ " - Status: " ++ toString r.status,
        by simp [makeRequest, handleOutcome, h]⟩
    | none =>
      by_cases hc : err.code = some "ECONNABORTED"
      · exact ⟨"Request timed out after " ++ toString c.timeout ++ "ms",
          by simp [makeRequest, handleOutcome, h, hc]⟩
      · exact ⟨"Unexpected error: " ++ err.stringify,
          by simp [makeRequest, handleOutcome, h, hc]⟩
  · intro r hr
    simp [makeRequest, handleOutcome, hr]
  · intro h hc
    simp [makeRequest, handleOutcome, h, hc]
  · intro h hc
    simp [makeRequest, handleOutcome, h, hc]

/-- Concrete instance of the classification: a transport error with no
response and a non-timeout code is wrapped generically. -/
theorem makeRequest_failure_classification_witness :
    makeRequest defaultClient HttpMethod.GET "/posts" none none
        (fun _ => (AxiosOutcome.failure
          { message := "socket hang up", response := none, code := some "ECONNRESET" }
          : AxiosOutcome JsValue)) =
      Except.error "Unexpected error: Error: socket hang up" :=
  (makeRequest_failure_classification JsValue defaultClient HttpMethod.GET "/posts"
      none none
      { message := "socket hang up", response := none, code := some "ECONNRESET" }).2.2.2
    rfl (by decide)

/-- Claim C2: the outgoing request configuration contains a `data` field
exactly when a request body was provided and a `params` field exactly
when query parameters were provided; an absent argument leaves the field
entirely out of the config.  (Every value the endpoint methods provide is
a JavaScript object, hence truthy, which is the stated hypothesis.) -/
theorem makeRequest_config_optional_fields (c : Client) (method : HttpMethod)
    (endpoint : String) (dataArg paramsArg : Option JsValue)
    (hd : ∀ v, dataArg = some v → v.truthy = true)
    (hp : ∀ v, paramsArg = some v → v.truthy = true) :
    (makeRequestCall c method endpoint dataArg paramsArg).data = dataArg ∧
    (makeRequestCall c method endpoint dataArg paramsArg).params = paramsArg := by
  refine ⟨?_, ?_⟩
  · cases hdv : dataArg with
    | none => simp [makeRequestCall, jsField]
    | some v => simp [makeRequestCall, jsField, hd v hdv]
  · cases hpv : paramsArg with
    | none => simp [makeRequestCall, jsField]
    | some v => simp [makeRequestCall, jsField, hp v hpv]

/-- Concrete instance: a provided object body is kept, an absent params
argument leaves no `params` field. -/
theorem makeRequest_config_optional_fields_witness :
    (makeRequestCall defaultClient HttpMethod.POST "/posts"
        (some (JsValue.vobj [])) none).data = some (JsValue.vobj []) ∧
    (makeRequestCall defaultClient HttpMethod.POST "/posts"
        (some (JsValue.vobj [])) none).params = none :=
  makeRequest_config_optional_fields defaultClient HttpMethod.POST "/posts"
    (some (JsValue.vobj [])) none
    (fun v hv => by cases hv; rfl)
    (fun v hv => by cases hv)

/-- Claim C3: `getPost(id)` with `id ≤ 0` throws the validation error
before any network call (the invocation is `failFast`, so no request
config is ever issued); with `id > 0` it raises no validation error and
issues a GET request to `/posts/{id}`. -/
theorem getPost_validation (c : Client) (id : Int) :
    (id ≤ 0 → getPostCall c id = Call.failFast "Post ID must be positive") ∧
    (0 < id → getPostCall c id =
      Call.net { method := HttpMethod.GET, url := c.baseUrl ++ ("/posts/" ++ toString id),
                 timeout := c.timeout, data := none, params := none }) := by
  refine ⟨?_, ?_⟩
  · intro h
    simp [getPostCall, h]
  · intro h
    simp [getPostCall, not_le.mpr h, makeRequestCall, jsField]

/-- Concrete instances: `getPost(0)` fails fast, `getPost(7)` issues
GET `/posts/7`. -/
theorem getPost_validation_witness :
    getPostCall defaultClient 0 = Call.failFast "Post ID must be positive" ∧
    getPostCall defaultClient 7 =
      Call.net { method := HttpMethod.GET,
                 url := defaultClient.baseUrl ++ ("/posts/" ++ toString (7 : Int)),
                 timeout := defaultClient.timeout, data := none, params := none } :=
  ⟨(getPost_validation defaultClient 0).1 (by decide),
   (getPost_validation defaultClient 7).2 (by decide)⟩

/-- Claim C4: `createPost(postData)` throws the validation error before
any network call exactly when `postData.title` or `postData.body` is
empty (the falsy case of the required string fields); otherwise it issues
a POST request to `/posts` carrying `postData` as the request body. -/
theorem createPost_validation (c : Client) (p : CreatePostRequest) :
    ((p.title = "" ∨ p.body = "") →
      createPostCall c p = Call.failFast "Title and body are required") ∧
    (p.title ≠ "" → p.body ≠ "" → createPostCall c p =
      Call.net { method := HttpMethod.POST, url := c.baseUrl ++ "/posts",
                 timeout := c.timeout, data := some p.toJs, params := none }) := by
  refine ⟨?_, ?_⟩
  · intro h
    simp [createPostCall, h]
  · intro ht hb
    simp [createPostCall, ht, hb, makeRequestCall, jsField, CreatePostRequest.toJs,
      JsValue.truthy]

/-- Concrete instances: an empty title fails fast; a non-empty title and
body reach the network with the body attached. -/
theorem createPost_validation_witness :
    createPostCall defaultClient { title := "", body := "b", userId := 1 } =
      Call.failFast "Title and body are required" ∧
    createPostCall defaultClient { title := "t", body := "b", userId := 1 } =
      Call.net { method := HttpMethod.POST, url := defaultClient.baseUrl ++ "/posts",
                 timeout := defaultClient.timeout,
                 data := some (CreatePostRequest.toJs { title := "t", body := "b", userId := 1 }),
                 params := none } :=
  ⟨(createPost_validation defaultClient { title := "", body := "b", userId := 1 }).1
      (Or.inl rfl),
   (createPost_validation defaultClient { title := "t", body := "b", userId := 1 }).2
      (by decide) (by decide)⟩

/-- Claim C5: when the underlying HTTP request succeeds, the returned
value is exactly the `{data, status, statusText}` envelope built from the
response, untransformed. -/
theorem makeRequest_success_envelope (T : Type) (c : Client) (method : HttpMethod)
    (endpoint : String) (dataArg paramsArg : Option JsValue)
    (body : T) (status : Nat) (statusText : String) :
    makeRequest c method endpoint dataArg paramsArg
        (fun _ => AxiosOutcome.success body status statusText) =
      Except.ok { data := body, status := status, statusText := statusText } := rfl

/-- Claim C6: every endpoint method issues exactly one HTTP request whose
URL is the configured base URL concatenated with the path from the
endpoint table (parameters interpolated) and whose verb matches the
table; for the two validated methods this is the request issued once
validation passes. -/
theorem endpoint_table (c : Client) :
    (getPostsCall c = Call.net
      { method := HttpMethod.GET, url := c.baseUrl ++ "/posts",
        timeout := c.timeout, data := none, params := none }) ∧
    (∀ id : Int, 0 < id → getPostCall c id = Call.net
      { method := HttpMethod.GET, url := c.baseUrl ++ ("/posts/" ++ toString id),
        timeout := c.timeout, data := none, params := none }) ∧
    (∀ postId : Int, getPostCommentsCall c postId = Call.net
      { method := HttpMethod.GET,
        url := c.baseUrl ++ ("/posts/" ++ toString postId ++ "/comments"),
        timeout := c.timeout, data := none, params := none }) ∧
    (∀ p : CreatePostRequest, p.title ≠ "" → p.body ≠ "" → createPostCall c p = Call.net
      { method := HttpMethod.POST, url := c.baseUrl ++ "/posts",
        timeout := c.timeout, data := some p.toJs, params := none }) ∧
    (∀ (id : Int) (p : UpdatePostRequest), updatePostCall c id p = Call.net
      { method := HttpMethod.PUT, url := c.baseUrl ++ ("/posts/" ++ toString id),
        timeout := c.timeout, data := some p.toJs, params := none }) ∧
    (∀ (id : Int) (p : UpdatePostRequest), patchPostCall c id p = Call.net
      { method := HttpMethod.PATCH, url := c.baseUrl ++ ("/posts/" ++ toString id),
        timeout := c.timeout, data := some p.toJs, params := none }) ∧
    (∀ id : Int, deletePostCall c id = Call.net
      { method := HttpMethod.DELETE, url := c.baseUrl ++ ("/posts/" ++ toString id),
        timeout := c.timeout, data := none, params := none }) ∧
    (∀ f : Option CommentsFilter, getCommentsCall c f = Call.net
      { method := HttpMethod.GET, url := c.baseUrl ++ "/comments",
        timeout := c.timeout, data := none, params := f.map CommentsFilter.toJs }) ∧
    (∀ id : Int, getCommentCall c id = Call.net
      { method := HttpMethod.GET, url := c.baseUrl ++ ("/comments/" ++ toString id),
        timeout := c.timeout, data := none, params := none }) ∧
    (getAlbumsCall c = Call.net
      { method := HttpMethod.GET, url := c.baseUrl ++ "/albums",
        timeout := c.timeout, data := none, params := none }) ∧
    (∀ id : Int, getAlbumCall c id = Call.net
      { method := HttpMethod.GET, url := c.baseUrl ++ ("/albums/" ++ toString id),
        timeout := c.timeout, data := none, params := none }) ∧
    (∀ albumId : Int, getAlbumPhotosCall c albumId = Call.net
      { method := HttpMethod.GET,
        url := c.baseUrl ++ ("/albums/" ++ toString albumId ++ "/photos"),
        timeout := c.timeout, data := none, params := none }) ∧
    (∀ f : Option PhotosFilter, getPhotosCall c f = Call.net
      { method := HttpMethod.GET, url := c.baseUrl ++ "/photos",
        timeout := c.timeout, data := none, params := f.map PhotosFilter.toJs }) ∧
    (∀ id : Int, getPhotoCall c id = Call.net
      { method := HttpMethod.GET, url := c.baseUrl ++ ("/photos/" ++ toString id),
        timeout := c.timeout, data := none, params := none }) ∧
    (∀ f : Option TodosFilter, getTodosCall c f = Call.net
      { method := HttpMethod.GET, url := c.baseUrl ++ "/todos",
        timeout := c.timeout, data := none, params := f.map TodosFilter.toJs }) ∧
    (∀ id : Int, getTodoCall c id = Call.net
      { method := HttpMethod.GET, url := c.baseUrl ++ ("/todos/" ++ toString id),
        timeout := c.timeout, data := none, params := none }) ∧
    (getUsersCall c = Call.net
      { method := HttpMethod.GET, url := c.baseUrl ++ "/users",
        timeout := c.timeout, data := none, params := none }) ∧
    (∀ id : Int, getUserCall c id = Call.net
      { method := HttpMethod.GET, url := c.baseUrl ++ ("/users/" ++ toString id),
        timeout := c.timeout, data := none, params := none }) ∧
    (∀ userId : Int, getUserPostsCall c userId = Call.net
      { method := HttpMethod.GET,
        url := c.baseUrl ++ ("/users/" ++ toString userId ++ "/posts"),
        timeout := c.timeout, data := none, params := none }) ∧
    (∀ userId : Int, getUserTodosCall c userId = Call.net
      { method := HttpMethod.GET,
        url := c.baseUrl ++ ("/users/" ++ toString userId ++ "/todos"),
        timeout := c.timeout, data := none, params := none }) ∧
    (∀ userId : Int, getUserAlbumsCall c userId = Call.net
      { method := HttpMethod.GET,
        url := c.baseUrl ++ ("/users/" ++ toString userId ++ "/albums"),
        timeout := c.timeout, data := none, params := none }) := by
  refine ⟨rfl, ?_, fun _ => rfl, ?_, fun _ _ => rfl, fun _ _ => rfl, fun _ => rfl,
    ?_, fun _ => rfl, rfl, fun _ => rfl, fun _ => rfl, ?_, fun _ => rfl, ?_,
    fun _ => rfl, rfl, fun _ => rfl, fun _ => rfl, fun _ => rfl, fun _ => rfl⟩
  · intro id h
    simp [getPostCall, not_le.mpr h, makeRequestCall, jsField]
  · intro p ht hb
    simp [createPostCall, ht, hb, makeRequestCall, jsField, CreatePostRequest.toJs,
      JsValue.truthy]
  · intro f
    cases f <;> rfl
  · intro f
    cases f <;> rfl
  · intro f
    cases f <;> rfl

/-- Concrete instances of the endpoint table: `updatePost(9, …)` issues
PUT `/posts/9`, `getUserTodos(3)` issues GET `/users/3/todos`, and
`getPost(2)` issues GET `/posts/2`. -/
theorem endpoint_table_witness :
    updatePostCall defaultClient 9 { title := some "t", body := none, userId := none } =
      Call.net
        { method := HttpMethod.PUT,
          url := defaultClient.baseUrl ++ ("/posts/" ++ toString (9 : Int)),
          timeout := defaultClient.timeout,
          data := some (UpdatePostRequest.toJs
            { title := some "t", body := none, userId := none }),
          params := none } ∧
    getUserTodosCall defaultClient 3 =
      Call.net
        { method := HttpMethod.GET,
          url := defaultClient.baseUrl ++ ("/users/" ++ toString (3 : Int) ++ "/todos"),
          timeout := defaultClient.timeout, data := none, params := none } ∧
    getPostCall defaultClient 2 =
      Call.net
        { method := HttpMethod.GET,
          url := defaultClient.baseUrl ++ ("/posts/" ++ toString (2 : Int)),
          timeout := defaultClient.timeout, data := none, params := none } :=
  ⟨(endpoint_table defaultClient).2.2.2.2.1 9
      { title := some "t", body := none, userId := none },
   (endpoint_table defaultClient).2.2.2.2.2.2.2.2.2.2.2.2.2.2.2.2.2.2.2.1 3,
   (endpoint_table defaultClient).2.1 2 (by decide)⟩

/-- Claim C7: every endpoint method other than `getPost` and `createPost`
reaches the network for every argument value — no client-side validation
error is raised on any of them. -/
theorem no_validation_outside_getPost_createPost (c : Client) :
    (getPostsCall c).isNet = true ∧
    (∀ postId : Int, (getPostCommentsCall c postId).isNet = true) ∧
    (∀ (id : Int) (p : UpdatePostRequest), (updatePostCall c id p).isNet = true) ∧
    (∀ (id : Int) (p : UpdatePostRequest), (patchPostCall c id p).isNet = true) ∧
    (∀ id : Int, (deletePostCall c id).isNet = true) ∧
    (∀ f : Option CommentsFilter, (getCommentsCall c f).isNet = true) ∧
    (∀ id : Int, (getCommentCall c id).isNet = true) ∧
    (getAlbumsCall c).isNet = true ∧
    (∀ id : Int, (getAlbumCall c id).isNet = true) ∧
    (∀ albumId : Int, (getAlbumPhotosCall c albumId).isNet = true) ∧
    (∀ f : Option PhotosFilter, (getPhotosCall c f).isNet = true) ∧
    (∀ id : Int, (getPhotoCall c id).isNet = true) ∧
    (∀ f : Option TodosFilter, (getTodosCall c f).isNet = true) ∧
    (∀ id : Int, (getTodoCall c id).isNet = true) ∧
    (getUsersCall c).isNet = true ∧
    (∀ id : Int, (getUserCall c id).isNet = true) ∧
    (∀ userId : Int, (getUserPostsCall c userId).isNet = true) ∧
    (∀ userId : Int, (getUserTodosCall c userId).isNet = true) ∧
    (∀ userId : Int, (getUserAlbumsCall c userId).isNet = true) :=
  ⟨rfl, fun _ => rfl, fun _ _ => rfl, fun _ _ => rfl, fun _ => rfl, fun _ => rfl,
   fun _ => rfl, rfl, fun _ => rfl, fun _ => rfl, fun _ => rfl, fun _ => rfl,
   fun _ => rfl, fun _ => rfl, rfl, fun _ => rfl, fun _ => rfl, fun _ => rfl,
   fun _ => rfl⟩

/-- Claim C8: `baseUrl` and `timeout` are fixed at construction and no
endpoint-method invocation modifies the client, so after any sequence of
invocations the client state is unchanged and any further call behaves
exactly as it would on the freshly constructed client. -/
theorem client_stateless (c : Client)
    (ops : List (Op × (RequestConfig → AxiosOutcome JsValue))) :
    runOps c ops = c ∧
    ∀ (op : Op) (tr : RequestConfig → AxiosOutcome JsValue),
      applyOp (runOps c ops) op tr = applyOp c op tr := by
  have h : runOps c ops = c := by
    induction ops with
    | nil => rfl
    | cons hd tl ih =>
      obtain ⟨op, tr⟩ := hd
      simpa [runOps, applyOp] using ih
  exact ⟨h, fun op tr => by rw [h]⟩

/-- Claim C9: `createPost` validates only `title` and `body`: whenever
both are non-empty it proceeds to the network regardless of `userId`
(zero and negative values included), carrying that `userId` unchecked in
the request body. -/
theorem createPost_no_userId_check (c : Client) (title body : String) (userId : Int)
    (ht : title ≠ "") (hb : body ≠ "") :
    createPostCall c { title := title, body := body, userId := userId } =
      Call.net
        { method := HttpMethod.POST, url := c.baseUrl ++ "/posts",
          timeout := c.timeout,
          data := some (JsValue.vobj [("title", JsValue.vstr title),
            ("body", JsValue.vstr body), ("userId", JsValue.vnum userId)]),
          params := none } := by
  simp [createPostCall, ht, hb, makeRequestCall, jsField, CreatePostRequest.toJs,
    JsValue.truthy]

/-- Concrete instances: valid title and body reach the network with
`userId = -5` and with `userId = 0`. -/
theorem createPost_no_userId_check_witness :
    createPostCall defaultClient { title := "t", body := "b", userId := -5 } =
      Call.net
        { method := HttpMethod.POST, url := defaultClient.baseUrl ++ "/posts",
          timeout := defaultClient.timeout,
          data := some (JsValue.vobj [("title", JsValue.vstr "t"),
            ("body", JsValue.vstr "b"), ("userId", JsValue.vnum (-5))]),
          params := none } ∧
    createPostCall defaultClient { title := "t", body := "b", userId := 0 } =
      Call.net
        { method := HttpMethod.POST, url := defaultClient.baseUrl ++ "/posts",
          timeout := defaultClient.timeout,
          data := some (JsValue.vobj [("title", JsValue.vstr "t"),
            ("body", JsValue.vstr "b"), ("userId", JsValue.vnum 0)]),
          params := none } :=
  ⟨createPost_no_userId_check defaultClient "t" "b" (-5) (by decide) (by decide),
   createPost_no_userId_check defaultClient "t" "b" 0 (by decide) (by decide)⟩

/-- Claim C10: in the catch block the `error.response` check comes first,
so an error carrying both a server response and the timeout code
`ECONNABORTED` is classified as a remote rejection (message with the
numeric status), not as a timeout. -/
theorem response_takes_precedence_over_timeout (t : Nat) (msg : String) (st : Nat) :
    (handleOutcome t (AxiosOutcome.failure
        { message := msg, response := some { status := st }, code := some "ECONNABORTED" })
      : Except String (ApiResponse JsValue)) =
    Except.error ("API request failed: " ++ msg ++ " - Status: " ++ toString st) := rfl

end JsonPlaceholder
